import Mathlib

/-!
# DeviceResources

A shallow embedding of `Samples/Server/Directx-SpinningCube/Common/DeviceResources.cpp`.

The object is a record of its member variables. Every call into Direct3D / DXGI is
answered from a `Platform` record, which holds one answer per call site: the
`HRESULT` returned and the pointer that the callee stores through its out-parameter.
Every call is appended to a trace of `Event`s, so that a statement about which calls
were made, in which order and with which arguments, is a statement about the trace.
Calling a method through a null pointer ends the run with `Outcome.nullDeref`.

Not in the source tree, and taken as follows: the constants `FRAME_BUFFER_WIDTH` and
`FRAME_BUFFER_HEIGHT` of `macros.h` are parameters (`Macros`); the macro
`SAFE_RELEASE` of `macros.h` is modelled from the spec; the initial values of the
members, which `DeviceResources.h` would give, are the entry state of each theorem.
-/

namespace DX

/-! ## Platform types -/

/-- A non-null pointer value. A pointer variable is an `Option Handle`, `none` being `nullptr`. -/
abbrev Handle := Nat

/-- The platform result code. -/
abbrev HRESULT := Int

/-- The `SUCCEEDED` test of the platform headers: the code is non-negative. -/
abbrev SUCCEEDED (hr : HRESULT) : Prop := 0 ≤ hr

/-- The `FAILED` test of the platform headers: the code is negative. -/
abbrev FAILED (hr : HRESULT) : Prop := hr < 0

/-- Interface identifiers that the source passes as `__uuidof(...)`. -/
inductive IID where
  | ID3D11Device1
  | ID3D11DeviceContext1
  | IDXGIDevice
  | IDXGIFactory1
  | IDXGIFactory2
  | ID3D11Texture2D
  deriving DecidableEq, Repr

/-- The pointer variables of the source: the five owned members, and the locals of
`CreateDeviceResources` and `CreateWindowSizeDependentResources`. -/
inductive Var where
  | m_d3dDevice
  | m_d3dContext
  | m_swapChain
  | m_d3dRenderTargetView
  | m_screenViewport
  | device
  | context
  | dxgiDevice
  | adapter
  | dxgiFactory
  | dxgiFactory2
  | frameBuffer
  deriving DecidableEq, Repr

/-- A `FLOAT` (IEEE binary32) by the number it stands for. Every `FLOAT` of the
source is `0.0f`, `1.0f` or the conversion of a non-negative `int` constant, so the
numbers are whole and non-negative. -/
structure FLOAT where
  value : Nat
  deriving DecidableEq, Repr

/-- How many low bits of `n` do not fit the 24-bit significand of a binary32: the
least `s` with `n / 2 ^ s < 2 ^ 24`. The first argument bounds the recursion and is
called with `n` itself, which is always enough. -/
def significandShift : Nat → Nat → Nat
  | 0, _ => 0
  | fuel + 1, n => if n < 2 ^ 24 then 0 else significandShift fuel (n / 2) + 1

/-- The conversion `(FLOAT)n` of a non-negative `int`: `n` itself when it fits 24
significant bits, and otherwise `n` rounded to 24 significant bits, to the nearest
and to the even significand on a tie. So `(FLOAT)16777217` is `16777216.0f`. -/
def FLOAT.cast (n : Nat) : FLOAT :=
  let shift := significandShift n n
  if shift = 0 then { value := n } else
    let q := n / 2 ^ shift
    let r := n % 2 ^ shift
    let half := 2 ^ (shift - 1)
    { value := (if half < r ∨ (r = half ∧ q % 2 = 1) then q + 1 else q) * 2 ^ shift }

/-- The viewport rectangle of the platform headers. -/
structure D3D11_VIEWPORT where
  TopLeftX : FLOAT
  TopLeftY : FLOAT
  Width : FLOAT
  Height : FLOAT
  MinDepth : FLOAT
  MaxDepth : FLOAT
  deriving DecidableEq, Repr

/-- The four-argument helper constructor of the platform headers; the depth range
takes its defaults `0.0f` and `1.0f`. -/
def CD3D11_VIEWPORT (topLeftX topLeftY width height : FLOAT) : D3D11_VIEWPORT :=
  { TopLeftX := topLeftX, TopLeftY := topLeftY, Width := width, Height := height,
    MinDepth := { value := 0 }, MaxDepth := { value := 1 } }

/-- The `SIZE` pair of the platform headers (two `LONG`s). -/
structure SIZE where
  cx : Int
  cy : Int
  deriving DecidableEq, Repr

inductive DXGI_USAGE where
  | ZERO
  | RENDER_TARGET_OUTPUT
  deriving DecidableEq, Repr

inductive DXGI_FORMAT where
  | UNKNOWN
  | R8G8B8A8_UNORM
  deriving DecidableEq, Repr

inductive DXGI_SWAP_EFFECT where
  | DISCARD
  | FLIP_SEQUENTIAL
  deriving DecidableEq, Repr

/-- The fields of `DXGI_SWAP_CHAIN_DESC1` that the source assigns after the `{ 0 }`
initialisation; `Width` and `Height` are `UINT`. -/
structure DXGI_SWAP_CHAIN_DESC1 where
  Width : Nat
  Height : Nat
  Format : DXGI_FORMAT
  SampleDescCount : Nat
  BufferUsage : DXGI_USAGE
  BufferCount : Nat
  SwapEffect : DXGI_SWAP_EFFECT
  deriving DecidableEq, Repr

/-- What a platform call with one out-parameter answers: the result code, and the
pointer it stores through the out-parameter (`none` for `nullptr`). -/
structure CallResult where
  hr : HRESULT
  out : Option Handle
  deriving DecidableEq, Repr

/-- What `D3D11CreateDevice` answers: the result code and the two pointers stored
through `&device` and `&context`. -/
structure CreateResult where
  hr : HRESULT
  device : Option Handle
  context : Option Handle
  deriving DecidableEq, Repr

/-- The answers of the platform, one per call site of the source. -/
structure Platform where
  /-- Line 73, `D3D11CreateDevice(..., &device, nullptr, &context)`. -/
  D3D11CreateDevice : CreateResult
  /-- Line 90, `device->QueryInterface(__uuidof(ID3D11Device1), &m_d3dDevice)`. -/
  QueryDevice1 : CallResult
  /-- Line 93, `context->QueryInterface(__uuidof(ID3D11DeviceContext1), &m_d3dContext)`. -/
  QueryContext1 : CallResult
  /-- Line 112, `m_d3dDevice->QueryInterface(__uuidof(IDXGIDevice), &dxgiDevice)`. -/
  QueryDXGIDevice : CallResult
  /-- Line 116, `dxgiDevice->GetAdapter(&adapter)`. -/
  GetAdapter : CallResult
  /-- Line 119, `adapter->GetParent(__uuidof(IDXGIFactory1), &dxgiFactory)`. -/
  GetParent : CallResult
  /-- Line 133, `dxgiFactory->QueryInterface(__uuidof(IDXGIFactory2), &dxgiFactory2)`. -/
  QueryFactory2 : CallResult
  /-- Line 145, `dxgiFactory2->CreateSwapChainForHwnd(..., &m_swapChain)`. -/
  CreateSwapChainForHwnd : CallResult
  /-- Line 166, `m_swapChain->GetBuffer(0, __uuidof(ID3D11Texture2D), &frameBuffer)`. -/
  GetBuffer : CallResult
  /-- Line 172, `m_d3dDevice->CreateRenderTargetView(frameBuffer, nullptr, &m_d3dRenderTargetView)`. -/
  CreateRenderTargetView : CallResult
  deriving DecidableEq, Repr

/-- The `HRESULT`-returning methods the source calls, with the arguments it passes. -/
inductive Method where
  | QueryInterface (riid : IID)
  | GetAdapter
  | GetParent (riid : IID)
  | CreateSwapChainForHwnd (pDevice : Handle) (hWnd : Handle) (pDesc : DXGI_SWAP_CHAIN_DESC1)
  | GetBuffer (Buffer : Nat) (riid : IID)
  | CreateRenderTargetView (pResource : Option Handle)
  deriving DecidableEq, Repr

/-- The calls whose result the source does not look at. -/
inductive Action where
  | Release
  | RSSetViewports (NumViewports : Nat) (pViewports : List D3D11_VIEWPORT)
  | Present (SyncInterval : Nat) (Flags : Nat)
  deriving DecidableEq, Repr

/-- One interaction with the platform or the allocator. -/
inductive Event where
  /-- Line 73, the call of `D3D11CreateDevice` and its answer. -/
  | D3D11CreateDevice (r : CreateResult)
  /-- The call `var->method(..., &dst)` on the non-null pointer `this`, and its answer. -/
  | call (var : Var) (this : Handle) (method : Method) (dst : Var) (r : CallResult)
  /-- The call `var->action(...)` on the non-null pointer `this`. -/
  | act (var : Var) (this : Handle) (action : Action)
  /-- The expression `new D3D11_VIEWPORT[n]`. -/
  | newArray (n : Nat)
  /-- The statement `delete [] p`, a no-op of the language when `p` is null. -/
  | deleteArray (p : Option (List D3D11_VIEWPORT))
  deriving DecidableEq, Repr

/-! ## Constants and macros of `macros.h` -/

/-- The two frame-buffer constants of `macros.h`, a header that is not part of the
source tree: they are parameters of the development, and they are `int` constants. -/
structure Macros where
  FRAME_BUFFER_WIDTH : Nat
  FRAME_BUFFER_HEIGHT : Nat
  width_int : FRAME_BUFFER_WIDTH < 2 ^ 31
  height_int : FRAME_BUFFER_HEIGHT < 2 ^ 31

/-- Modelled from the spec: the `SAFE_RELEASE` of `macros.h`, a header that is not part
of the source tree. The spec says of the releases that each one "is null-safe": the
macro calls `Release` on a non-null pointer and does nothing on a null one. The
events it yields are returned; `var` is the variable it is applied to. -/
def SAFE_RELEASE (var : Var) (p : Option Handle) : List Event :=
  match p with
  | some h => [Event.act var h Action.Release]
  | none => []

/-! ## The object -/

/-- The member variables of `DeviceResources` that the source reads or writes. -/
structure DeviceResources where
  m_isStereo : Bool
  m_d3dDevice : Option Handle
  m_d3dContext : Option Handle
  m_swapChain : Option Handle
  m_d3dRenderTargetView : Option Handle
  m_screenViewport : Option (List D3D11_VIEWPORT)
  m_outputSize : SIZE
  deriving DecidableEq, Repr

/-- How a member function ends: it returns a value, leaving the object in state
`self` after the events of `trace`; or it calls a method through a null pointer,
after the events of `trace`. -/
inductive Outcome (α : Type) where
  | returned (value : α) (self : DeviceResources) (trace : List Event)
  | nullDeref (self : DeviceResources) (trace : List Event)
  deriving DecidableEq, Repr

/-- How a block of statements inside a function ends: control reaches its end with
the given values of the variables it assigns, it executes `return hr`, or it calls a
method through a null pointer. -/
inductive Block (α : Type) where
  | next (vars : α) (trace : List Event)
  | ret (hr : HRESULT) (vars : α) (trace : List Event)
  | nullDeref (trace : List Event)
  deriving DecidableEq, Repr

/-- Lines 20-27. The object is not used after its destructor, so only the events are
returned. -/
def CleanupResources (self : DeviceResources) : List Event :=
  [Event.deleteArray self.m_screenViewport]
    ++ SAFE_RELEASE Var.m_d3dContext self.m_d3dContext
    ++ SAFE_RELEASE Var.m_d3dRenderTargetView self.m_d3dRenderTargetView
    ++ SAFE_RELEASE Var.m_swapChain self.m_swapChain
    ++ SAFE_RELEASE Var.m_d3dDevice self.m_d3dDevice

/-- Lines 29-32. -/
def GetOutputSize (self : DeviceResources) : SIZE :=
  self.m_outputSize

/-- Lines 34-37. -/
def IsStereo (self : DeviceResources) : Bool :=
  self.m_isStereo

/-- Lines 65-103. -/
def CreateDeviceResources (p : Platform) (self : DeviceResources) : Outcome HRESULT :=
  -- lines 67-83: hr = D3D11CreateDevice(..., &device, nullptr, &context)
  let created := p.D3D11CreateDevice
  let t73 := [Event.D3D11CreateDevice created]
  -- lines 85-88
  if FAILED created.hr then Outcome.returned created.hr self t73 else
  -- line 90: hr = device->QueryInterface(__uuidof(ID3D11Device1), &m_d3dDevice)
  match created.device with
  | none => Outcome.nullDeref self t73
  | some device =>
  let hr := p.QueryDevice1.hr
  let self90 := { self with m_d3dDevice := p.QueryDevice1.out }
  let t90 := t73 ++ [Event.call Var.device device (Method.QueryInterface IID.ID3D11Device1)
    Var.m_d3dDevice p.QueryDevice1]
  -- lines 91-96
  if SUCCEEDED hr then
    match created.context with
    | none => Outcome.nullDeref self90 t90
    | some context =>
      let self93 := { self90 with m_d3dContext := p.QueryContext1.out }
      let t93 := t90 ++ [Event.call Var.context context
        (Method.QueryInterface IID.ID3D11DeviceContext1) Var.m_d3dContext p.QueryContext1]
      -- lines 99-102
      Outcome.returned hr self93
        (t93 ++ SAFE_RELEASE Var.context created.context ++ SAFE_RELEASE Var.device created.device)
  else
    -- lines 99-102
    Outcome.returned hr self90
      (t90 ++ SAFE_RELEASE Var.context created.context ++ SAFE_RELEASE Var.device created.device)

/-- Lines 8-12, the constructor, applied to the storage `init` of the new object
(the in-class initialisers are in `DeviceResources.h`, which is not part of the
source tree). The result code of `CreateDeviceResources` is dropped. -/
def DeviceResources.new (p : Platform) (init : DeviceResources) (isStereo : Bool) :
    Outcome Unit :=
  match CreateDeviceResources p { init with m_isStereo := isStereo } with
  | Outcome.returned _ self trace => Outcome.returned () self trace
  | Outcome.nullDeref self trace => Outcome.nullDeref self trace

/-- Lines 113-124 of `CreateWindowSizeDependentResources`, entered after the call of
line 112 (whose event is `t112`). The block assigns `hr` and `dxgiFactory`, which
are its variables. -/
def lines113to124 (p : Platform) (t112 : List Event) : Block (HRESULT × Option Handle) :=
  if SUCCEEDED p.QueryDXGIDevice.hr then
    -- line 116: hr = dxgiDevice->GetAdapter(&adapter)
    match p.QueryDXGIDevice.out with
    | none => Block.nullDeref t112
    | some dxgiDevice =>
      let t116 := t112 ++ [Event.call Var.dxgiDevice dxgiDevice Method.GetAdapter
        Var.adapter p.GetAdapter]
      if SUCCEEDED p.GetAdapter.hr then
        -- lines 119-120
        match p.GetAdapter.out with
        | none => Block.nullDeref t116
        | some adapter =>
          Block.next (p.GetParent.hr, p.GetParent.out)
            (t116 ++ [Event.call Var.adapter adapter (Method.GetParent IID.IDXGIFactory1)
                        Var.dxgiFactory p.GetParent,
                      Event.act Var.adapter adapter Action.Release,
                      -- line 123
                      Event.act Var.dxgiDevice dxgiDevice Action.Release])
      else
        -- line 123
        Block.next (p.GetAdapter.hr, none)
          (t116 ++ [Event.act Var.dxgiDevice dxgiDevice Action.Release])
  else Block.next (p.QueryDXGIDevice.hr, none) t112

/-- Lines 136-143 of `CreateWindowSizeDependentResources`: the local `swapChainDesc`
as it stands when line 145 passes it. The `UINT` fields are reduced modulo `2 ^ 32`. -/
def swapChainDesc (m : Macros) (self : DeviceResources) : DXGI_SWAP_CHAIN_DESC1 :=
  { BufferUsage := DXGI_USAGE.RENDER_TARGET_OUTPUT
    BufferCount := 2
    SampleDescCount := 1
    Format := DXGI_FORMAT.R8G8B8A8_UNORM
    SwapEffect := DXGI_SWAP_EFFECT.FLIP_SEQUENTIAL
    Width := (if self.m_isStereo then m.FRAME_BUFFER_WIDTH <<< 1
              else m.FRAME_BUFFER_WIDTH) % 2 ^ 32
    Height := m.FRAME_BUFFER_HEIGHT % 2 ^ 32 }

/-- Lines 134-159 of `CreateWindowSizeDependentResources`, entered after the call of
line 133 with the events `t133` so far. The block assigns `m_swapChain`: its
variable is the object. -/
def lines134to159 (m : Macros) (p : Platform) (self : DeviceResources) (d3dDevice : Handle)
    (hWnd : Handle) (t133 : List Event) : Block DeviceResources :=
  -- line 134: if (dxgiFactory2)
  match p.QueryFactory2.out with
  | none => Block.next self t133
  | some dxgiFactory2 =>
    -- lines 145-151
    let self145 := { self with m_swapChain := p.CreateSwapChainForHwnd.out }
    let t145 := t133 ++ [Event.call Var.dxgiFactory2 dxgiFactory2
      (Method.CreateSwapChainForHwnd d3dDevice hWnd (swapChainDesc m self))
      Var.m_swapChain p.CreateSwapChainForHwnd]
    -- lines 153-156
    if FAILED p.CreateSwapChainForHwnd.hr then
      Block.ret p.CreateSwapChainForHwnd.hr self145 t145
    else
      -- line 158
      Block.next self145 (t145 ++ [Event.act Var.dxgiFactory2 dxgiFactory2 Action.Release])

/-- Lines 106-214. The two nested blocks are `lines113to124` and `lines134to159`. -/
def CreateWindowSizeDependentResources (m : Macros) (p : Platform)
    (self : DeviceResources) (hWnd : Handle) : Outcome HRESULT :=
  -- line 112: hr = m_d3dDevice->QueryInterface(__uuidof(IDXGIDevice), &dxgiDevice)
  match self.m_d3dDevice with
  | none => Outcome.nullDeref self []
  | some d3dDevice =>
  let t112 := [Event.call Var.m_d3dDevice d3dDevice (Method.QueryInterface IID.IDXGIDevice)
    Var.dxgiDevice p.QueryDXGIDevice]
  -- lines 113-124
  match lines113to124 p t112 with
  | Block.nullDeref t => Outcome.nullDeref self t
  | Block.ret hr _ t => Outcome.returned hr self t  -- not reached: the block has no return
  | Block.next (hr, dxgiFactory) t124 =>
  -- lines 126-129
  if FAILED hr then Outcome.returned hr self t124 else
  -- line 133: hr = dxgiFactory->QueryInterface(__uuidof(IDXGIFactory2), &dxgiFactory2)
  match dxgiFactory with
  | none => Outcome.nullDeref self t124
  | some factory =>
  let t133 := t124 ++ [Event.call Var.dxgiFactory factory (Method.QueryInterface IID.IDXGIFactory2)
    Var.dxgiFactory2 p.QueryFactory2]
  -- lines 134-159
  match lines134to159 m p self d3dDevice hWnd t133 with
  | Block.nullDeref t => Outcome.nullDeref self t  -- not reached: dxgiFactory2 is tested
  | Block.ret hr self145 t => Outcome.returned hr self145 t
  | Block.next self159 t159 =>
  -- line 162
  let t162 := t159 ++ SAFE_RELEASE Var.dxgiFactory (some factory)
  -- lines 165-170: hr = m_swapChain->GetBuffer(0, __uuidof(ID3D11Texture2D), &frameBuffer)
  match self159.m_swapChain with
  | none => Outcome.nullDeref self159 t162
  | some swapChain =>
  let frameBuffer := p.GetBuffer.out
  let t166 := t162 ++ [Event.call Var.m_swapChain swapChain
    (Method.GetBuffer 0 IID.ID3D11Texture2D) Var.frameBuffer p.GetBuffer]
  if FAILED p.GetBuffer.hr then Outcome.returned p.GetBuffer.hr self159 t166 else
  -- line 172: hr = m_d3dDevice->CreateRenderTargetView(frameBuffer, nullptr, &m_d3dRenderTargetView)
  let hr := p.CreateRenderTargetView.hr
  let self172 := { self159 with m_d3dRenderTargetView := p.CreateRenderTargetView.out }
  let t172 := t166 ++ [Event.call Var.m_d3dDevice d3dDevice
    (Method.CreateRenderTargetView frameBuffer) Var.m_d3dRenderTargetView p.CreateRenderTargetView]
  -- line 173
  let t173 := t172 ++ SAFE_RELEASE Var.frameBuffer frameBuffer
  -- lines 174-177
  if FAILED hr then Outcome.returned hr self172 t173 else
  -- lines 210-211, executed at the end of either branch
  let outputSize : SIZE :=
    { cx := (m.FRAME_BUFFER_WIDTH : Int), cy := (m.FRAME_BUFFER_HEIGHT : Int) }
  -- lines 180-208
  if self172.m_isStereo then
    -- lines 182-196
    let viewports :=
      [ CD3D11_VIEWPORT { value := 0 } { value := 0 }
          (FLOAT.cast m.FRAME_BUFFER_WIDTH) (FLOAT.cast m.FRAME_BUFFER_HEIGHT),
        CD3D11_VIEWPORT (FLOAT.cast m.FRAME_BUFFER_WIDTH) { value := 0 }
          (FLOAT.cast m.FRAME_BUFFER_WIDTH) (FLOAT.cast m.FRAME_BUFFER_HEIGHT) ]
    let self196 := { self172 with m_screenViewport := some viewports }
    -- lines 210-213
    Outcome.returned hr { self196 with m_outputSize := outputSize } (t173 ++ [Event.newArray 2])
  else
    -- lines 200-205
    let viewports :=
      [ CD3D11_VIEWPORT { value := 0 } { value := 0 }
          (FLOAT.cast m.FRAME_BUFFER_WIDTH) (FLOAT.cast m.FRAME_BUFFER_HEIGHT) ]
    let self205 := { self172 with m_screenViewport := some viewports }
    let t205 := t173 ++ [Event.newArray 1]
    -- line 207: m_d3dContext->RSSetViewports(1, m_screenViewport)
    match self205.m_d3dContext with
    | none => Outcome.nullDeref self205 t205
    | some d3dContext =>
      -- lines 210-213
      Outcome.returned hr { self205 with m_outputSize := outputSize }
        (t205 ++ [Event.act Var.m_d3dContext d3dContext (Action.RSSetViewports 1 viewports)])

/-- Lines 216-219. The result code of the attach is dropped. -/
def SetWindow (m : Macros) (p : Platform) (self : DeviceResources) (hWnd : Handle) :
    Outcome Unit :=
  match CreateWindowSizeDependentResources m p self hWnd with
  | Outcome.returned _ self1 trace => Outcome.returned () self1 trace
  | Outcome.nullDeref self1 trace => Outcome.nullDeref self1 trace

/-- Lines 222-225. `_hr` is the code that the swap chain answers; the source does
not read it. -/
def Present (_hr : HRESULT) (self : DeviceResources) : Outcome Unit :=
  -- line 224: m_swapChain->Present(1, 0), an expression statement
  match self.m_swapChain with
  | none => Outcome.nullDeref self []
  | some swapChain =>
    Outcome.returned () self [Event.act Var.m_swapChain swapChain (Action.Present 1 0)]

/-- The state of the object when the run ended. -/
def Outcome.finalState {α : Type} : Outcome α → DeviceResources
  | Outcome.returned _ self _ => self
  | Outcome.nullDeref self _ => self

/-- The events of the run. -/
def Outcome.events {α : Type} : Outcome α → List Event
  | Outcome.returned _ _ trace => trace
  | Outcome.nullDeref _ trace => trace

/-- The run ended by returning, without a call through a null pointer. -/
def Outcome.completes {α : Type} : Outcome α → Bool
  | Outcome.returned _ _ _ => true
  | Outcome.nullDeref _ _ => false

/-- The same outcome with the final state changed by `f`. -/
def Outcome.mapState {α : Type} (f : DeviceResources → DeviceResources) : Outcome α → Outcome α
  | Outcome.returned value self trace => Outcome.returned value (f self) trace
  | Outcome.nullDeref self trace => Outcome.nullDeref (f self) trace

/-! ## Observations on traces -/

/-- The swap-chain description of an event, if the event is a call of
`CreateSwapChainForHwnd`. -/
def Event.swapChainRequest : Event → Option DXGI_SWAP_CHAIN_DESC1
  | Event.call _ _ (Method.CreateSwapChainForHwnd _ _ desc) _ _ => some desc
  | _ => none

/-- The swap-chain descriptions requested in a trace, in order. -/
def swapChainRequests (trace : List Event) : List DXGI_SWAP_CHAIN_DESC1 :=
  trace.filterMap Event.swapChainRequest

/-- The receiver, count and array of an event, if the event is a call of
`RSSetViewports`. -/
def Event.viewportBind : Event → Option (Var × Handle × Nat × List D3D11_VIEWPORT)
  | Event.act var this (Action.RSSetViewports n vps) => some (var, this, n, vps)
  | _ => none

/-- The viewport-bind calls of a trace, in order. -/
def viewportBinds (trace : List Event) : List (Var × Handle × Nat × List D3D11_VIEWPORT) :=
  trace.filterMap Event.viewportBind

/-- The viewports that lines 180-208 store: two side by side when stereo, else one.
The sizes are the `FLOAT` conversions of the two constants. -/
def expectedViewports (m : Macros) (isStereo : Bool) : List D3D11_VIEWPORT :=
  if isStereo then
    [ { TopLeftX := { value := 0 }, TopLeftY := { value := 0 },
        Width := FLOAT.cast m.FRAME_BUFFER_WIDTH, Height := FLOAT.cast m.FRAME_BUFFER_HEIGHT,
        MinDepth := { value := 0 }, MaxDepth := { value := 1 } },
      { TopLeftX := FLOAT.cast m.FRAME_BUFFER_WIDTH, TopLeftY := { value := 0 },
        Width := FLOAT.cast m.FRAME_BUFFER_WIDTH, Height := FLOAT.cast m.FRAME_BUFFER_HEIGHT,
        MinDepth := { value := 0 }, MaxDepth := { value := 1 } } ]
  else
    [ { TopLeftX := { value := 0 }, TopLeftY := { value := 0 },
        Width := FLOAT.cast m.FRAME_BUFFER_WIDTH, Height := FLOAT.cast m.FRAME_BUFFER_HEIGHT,
        MinDepth := { value := 0 }, MaxDepth := { value := 1 } } ]

/-- The value returned, when the run returned. -/
def Outcome.value {α : Type} : Outcome α → Option α
  | Outcome.returned value _ _ => some value
  | Outcome.nullDeref _ _ => none

/-- The calls of `QueryInterface` for `ID3D11DeviceContext1` in a trace: the context
upgrade of line 93. -/
def contextUpgrades (trace : List Event) : List Event :=
  trace.filter fun e =>
    match e with
    | Event.call _ _ (Method.QueryInterface IID.ID3D11DeviceContext1) _ _ => true
    | _ => false

/-- The variable and pointer of an event, if the event is a call of `Release`. -/
def Event.releaseCall : Event → Option (Var × Handle)
  | Event.act var this Action.Release => some (var, this)
  | _ => none

/-- The `Release` calls of a trace, in order. -/
def releaseCalls (trace : List Event) : List (Var × Handle) :=
  trace.filterMap Event.releaseCall

/-- The release of `var` that is due when it holds `p`: none for a null pointer. -/
def dueRelease (var : Var) (p : Option Handle) : Option (Var × Handle) :=
  p.map fun h => (var, h)

/-- The five owned members. -/
def Var.isOwned : Var → Bool
  | Var.m_d3dDevice => true
  | Var.m_d3dContext => true
  | Var.m_swapChain => true
  | Var.m_d3dRenderTargetView => true
  | Var.m_screenViewport => true
  | _ => false

/-- The variable that an event acquires: the destination of a call that stored a
non-null pointer, and the viewport array for a `new`. -/
def Event.acquired : Event → Option Var
  | Event.call _ _ _ dst r => if r.out.isSome then some dst else none
  | Event.newArray _ => some Var.m_screenViewport
  | _ => none

/-- The variable that an event releases: the receiver of a `Release`, and the
viewport array for a `delete []` of a non-null array. -/
def Event.released : Event → Option Var
  | Event.act var _ Action.Release => some var
  | Event.deleteArray (some _) => some Var.m_screenViewport
  | _ => none

/-- The owned members in the order in which a trace acquires them. -/
def acquisitionOrder (trace : List Event) : List Var :=
  (trace.filterMap Event.acquired).filter Var.isOwned

/-- The owned members in the order in which a trace releases them. -/
def releaseOrder (trace : List Event) : List Var :=
  (trace.filterMap Event.released).filter Var.isOwned

/-- How many times a trace acquires `var`. -/
def acquisitions (var : Var) (trace : List Event) : Nat :=
  (trace.filterMap Event.acquired).count var

/-- How many times a trace releases `var`. -/
def releases (var : Var) (trace : List Event) : Nat :=
  (trace.filterMap Event.released).count var

/-- The variable through which an event calls a method, if it is a method call. -/
def Event.receiver : Event → Option Var
  | Event.call var _ _ _ _ => some var
  | Event.act var _ _ => some var
  | _ => none

/-- A call that succeeds and stores a non-null pointer. -/
def CallResult.succeeds (r : CallResult) : Prop :=
  SUCCEEDED r.hr ∧ r.out.isSome = true

instance (r : CallResult) : Decidable r.succeeds := by
  unfold CallResult.succeeds; infer_instance

/-- Every platform call of the attach succeeds and stores a non-null pointer. -/
def Platform.attachSucceeds (p : Platform) : Prop :=
  p.QueryDXGIDevice.succeeds ∧ p.GetAdapter.succeeds ∧ p.GetParent.succeeds ∧
  p.QueryFactory2.succeeds ∧ p.CreateSwapChainForHwnd.succeeds ∧ p.GetBuffer.succeeds ∧
  p.CreateRenderTargetView.succeeds

instance (p : Platform) : Decidable p.attachSucceeds := by
  unfold Platform.attachSucceeds; infer_instance

/-- `E_NOINTERFACE`, 0x80004002 as a signed 32-bit value. -/
def E_NOINTERFACE : HRESULT := -2147467262

/-- `DXGI_ERROR_INVALID_CALL`, 0x887A0001 as a signed 32-bit value. -/
def DXGI_ERROR_INVALID_CALL : HRESULT := -2005270527

/-- The seven platform calls of the attach, in the order of the source. -/
inductive Step where
  | QueryDXGIDevice
  | GetAdapter
  | GetParent
  | QueryFactory2
  | CreateSwapChainForHwnd
  | GetBuffer
  | CreateRenderTargetView
  deriving DecidableEq, Repr

/-- The step of the attach that an event is, if it is one of the seven. -/
def Event.step : Event → Option Step
  | Event.call _ _ (Method.QueryInterface IID.IDXGIDevice) _ _ => some Step.QueryDXGIDevice
  | Event.call _ _ Method.GetAdapter _ _ => some Step.GetAdapter
  | Event.call _ _ (Method.GetParent _) _ _ => some Step.GetParent
  | Event.call _ _ (Method.QueryInterface IID.IDXGIFactory2) _ _ => some Step.QueryFactory2
  | Event.call _ _ (Method.CreateSwapChainForHwnd _ _ _) _ _ => some Step.CreateSwapChainForHwnd
  | Event.call _ _ (Method.GetBuffer _ _) _ _ => some Step.GetBuffer
  | Event.call _ _ (Method.CreateRenderTargetView _) _ _ => some Step.CreateRenderTargetView
  | _ => none

/-- The steps of the attach that a trace performs, in order. -/
def stepsOf (trace : List Event) : List Step :=
  trace.filterMap Event.step

/-! ## Example data -/

/-- The frame-buffer constants of the concrete scenarios of the spec: 1280 by 720. -/
def exampleMacros : Macros :=
  { FRAME_BUFFER_WIDTH := 1280, FRAME_BUFFER_HEIGHT := 720,
    width_int := by decide, height_int := by decide }

/-- Frame-buffer constants whose width, `2 ^ 24 + 1`, is not a binary32 number. -/
def roundingMacros : Macros :=
  { FRAME_BUFFER_WIDTH := 16777217, FRAME_BUFFER_HEIGHT := 720,
    width_int := by decide, height_int := by decide }

/-- A platform on which every call succeeds (`S_OK`) and stores a non-null pointer. -/
def examplePlatform : Platform :=
  { D3D11CreateDevice := { hr := 0, device := some 1, context := some 2 }
    QueryDevice1 := { hr := 0, out := some 3 }
    QueryContext1 := { hr := 0, out := some 4 }
    QueryDXGIDevice := { hr := 0, out := some 5 }
    GetAdapter := { hr := 0, out := some 6 }
    GetParent := { hr := 0, out := some 7 }
    QueryFactory2 := { hr := 0, out := some 8 }
    CreateSwapChainForHwnd := { hr := 0, out := some 9 }
    GetBuffer := { hr := 0, out := some 10 }
    CreateRenderTargetView := { hr := 0, out := some 11 } }

/-- An object with every pointer member null, before the constructor body runs. -/
def exampleInit : DeviceResources :=
  { m_isStereo := false, m_d3dDevice := none, m_d3dContext := none, m_swapChain := none,
    m_d3dRenderTargetView := none, m_screenViewport := none, m_outputSize := { cx := 0, cy := 0 } }

/-- The object that the constructor leaves on `examplePlatform`: device 3, context 4. -/
def exampleConstructed (isStereo : Bool) : DeviceResources :=
  { m_isStereo := isStereo, m_d3dDevice := some 3, m_d3dContext := some 4, m_swapChain := none,
    m_d3dRenderTargetView := none, m_screenViewport := none, m_outputSize := { cx := 0, cy := 0 } }

/-- The window handle of the examples. -/
def exampleWindow : Handle := 99

/-! ## The two blocks of the attach -/

theorem not_FAILED_iff (hr : HRESULT) : ¬ FAILED hr ↔ SUCCEEDED hr :=
  not_lt

theorem not_SUCCEEDED_iff (hr : HRESULT) : ¬ SUCCEEDED hr ↔ FAILED hr :=
  not_le

theorem lines113to124_ne_ret (p : Platform) (t112 : List Event) (hr : HRESULT)
    (vars : HRESULT × Option Handle) (t : List Event) :
    lines113to124 p t112 ≠ Block.ret hr vars t := by
  unfold lines113to124
  repeat' split
  all_goals simp

theorem lines113to124_next_succeeded (p : Platform) (t112 t : List Event) (hr : HRESULT)
    (dxgiFactory : Option Handle)
    (h : lines113to124 p t112 = Block.next (hr, dxgiFactory) t) (hok : ¬ FAILED hr) :
    ∃ dxgiDevice adapter,
      p.QueryDXGIDevice.out = some dxgiDevice ∧ p.GetAdapter.out = some adapter ∧
      SUCCEEDED p.QueryDXGIDevice.hr ∧ SUCCEEDED p.GetAdapter.hr ∧
      hr = p.GetParent.hr ∧ dxgiFactory = p.GetParent.out ∧
      t = t112 ++
        [Event.call Var.dxgiDevice dxgiDevice Method.GetAdapter Var.adapter p.GetAdapter,
         Event.call Var.adapter adapter (Method.GetParent IID.IDXGIFactory1) Var.dxgiFactory
           p.GetParent,
         Event.act Var.adapter adapter Action.Release,
         Event.act Var.dxgiDevice dxgiDevice Action.Release] := by
  unfold lines113to124 at h
  repeat' split at h
  all_goals simp only [Block.next.injEq, Prod.mk.injEq, reduceCtorEq] at h
  all_goals obtain ⟨⟨h1, h2⟩, h3⟩ := h
  all_goals subst h1 h2 h3
  all_goals first
    | exact absurd ((not_FAILED_iff _).mp hok) (by assumption)
    | exact ⟨_, _, by assumption, by assumption, by assumption, by assumption, rfl, rfl,
        by simp⟩

theorem lines134to159_ne_nullDeref (m : Macros) (p : Platform) (self : DeviceResources)
    (d3dDevice hWnd : Handle) (t133 t : List Event) :
    lines134to159 m p self d3dDevice hWnd t133 ≠ Block.nullDeref t := by
  unfold lines134to159
  repeat' split
  all_goals simp

theorem lines134to159_next (m : Macros) (p : Platform) (self self159 : DeviceResources)
    (d3dDevice hWnd : Handle) (t133 t159 : List Event)
    (h : lines134to159 m p self d3dDevice hWnd t133 = Block.next self159 t159) :
    (p.QueryFactory2.out = none ∧ self159 = self ∧ t159 = t133) ∨
    (∃ dxgiFactory2, p.QueryFactory2.out = some dxgiFactory2 ∧
      SUCCEEDED p.CreateSwapChainForHwnd.hr ∧
      self159 = { self with m_swapChain := p.CreateSwapChainForHwnd.out } ∧
      t159 = t133 ++
        [Event.call Var.dxgiFactory2 dxgiFactory2
           (Method.CreateSwapChainForHwnd d3dDevice hWnd (swapChainDesc m self))
           Var.m_swapChain p.CreateSwapChainForHwnd,
         Event.act Var.dxgiFactory2 dxgiFactory2 Action.Release]) := by
  unfold lines134to159 at h
  repeat' split at h
  all_goals simp only [Block.next.injEq, reduceCtorEq] at h
  all_goals obtain ⟨h1, h2⟩ := h
  all_goals subst h1 h2
  · exact Or.inl ⟨by assumption, rfl, rfl⟩
  · exact Or.inr ⟨_, by assumption, (not_FAILED_iff _).mp (by assumption), rfl, by simp⟩

theorem lines134to159_ret (m : Macros) (p : Platform) (self self145 : DeviceResources)
    (d3dDevice hWnd : Handle) (t133 t : List Event) (hr : HRESULT)
    (h : lines134to159 m p self d3dDevice hWnd t133 = Block.ret hr self145 t) :
    FAILED hr ∧ hr = p.CreateSwapChainForHwnd.hr ∧
    self145 = { self with m_swapChain := p.CreateSwapChainForHwnd.out } ∧
    ∃ dxgiFactory2, p.QueryFactory2.out = some dxgiFactory2 ∧
      t = t133 ++
        [Event.call Var.dxgiFactory2 dxgiFactory2
           (Method.CreateSwapChainForHwnd d3dDevice hWnd (swapChainDesc m self))
           Var.m_swapChain p.CreateSwapChainForHwnd] := by
  unfold lines134to159 at h
  repeat' split at h
  all_goals simp only [Block.ret.injEq, reduceCtorEq] at h
  obtain ⟨h1, h2, h3⟩ := h
  subst h1 h2 h3
  exact ⟨by assumption, rfl, rfl, _, by assumption, rfl⟩

/-! ## The successful attach -/

/-- Every attach that returns a success code went through all of its steps: the
lemma lists what the platform answered, the events of the run, and the state left. -/
theorem attach_returned_succeeded (m : Macros) (p : Platform) (self : DeviceResources)
    (hWnd : Handle) (hr : HRESULT) (self1 : DeviceResources) (trace : List Event)
    (h : CreateWindowSizeDependentResources m p self hWnd = Outcome.returned hr self1 trace)
    (hok : SUCCEEDED hr) :
    ∃ d3dDevice dxgiDevice adapter factory swapChain mid tail,
      self.m_d3dDevice = some d3dDevice ∧
      p.QueryDXGIDevice.out = some dxgiDevice ∧ p.GetAdapter.out = some adapter ∧
      p.GetParent.out = some factory ∧
      SUCCEEDED p.QueryDXGIDevice.hr ∧ SUCCEEDED p.GetAdapter.hr ∧
      SUCCEEDED p.GetParent.hr ∧ SUCCEEDED p.GetBuffer.hr ∧
      hr = p.CreateRenderTargetView.hr ∧
      ((p.QueryFactory2.out = none ∧ self.m_swapChain = some swapChain ∧ mid = []) ∨
       (∃ dxgiFactory2, p.QueryFactory2.out = some dxgiFactory2 ∧
          SUCCEEDED p.CreateSwapChainForHwnd.hr ∧
          p.CreateSwapChainForHwnd.out = some swapChain ∧
          mid = [Event.call Var.dxgiFactory2 dxgiFactory2
                   (Method.CreateSwapChainForHwnd d3dDevice hWnd (swapChainDesc m self))
                   Var.m_swapChain p.CreateSwapChainForHwnd,
                 Event.act Var.dxgiFactory2 dxgiFactory2 Action.Release])) ∧
      ((self.m_isStereo = true ∧ tail = [Event.newArray 2]) ∨
       (self.m_isStereo = false ∧ ∃ d3dContext, self.m_d3dContext = some d3dContext ∧
          tail = [Event.newArray 1,
                  Event.act Var.m_d3dContext d3dContext
                    (Action.RSSetViewports 1 (expectedViewports m false))])) ∧
      trace =
        [Event.call Var.m_d3dDevice d3dDevice (Method.QueryInterface IID.IDXGIDevice)
           Var.dxgiDevice p.QueryDXGIDevice,
         Event.call Var.dxgiDevice dxgiDevice Method.GetAdapter Var.adapter p.GetAdapter,
         Event.call Var.adapter adapter (Method.GetParent IID.IDXGIFactory1) Var.dxgiFactory
           p.GetParent,
         Event.act Var.adapter adapter Action.Release,
         Event.act Var.dxgiDevice dxgiDevice Action.Release,
         Event.call Var.dxgiFactory factory (Method.QueryInterface IID.IDXGIFactory2)
           Var.dxgiFactory2 p.QueryFactory2]
        ++ mid ++
        [Event.act Var.dxgiFactory factory Action.Release,
         Event.call Var.m_swapChain swapChain (Method.GetBuffer 0 IID.ID3D11Texture2D)
           Var.frameBuffer p.GetBuffer,
         Event.call Var.m_d3dDevice d3dDevice (Method.CreateRenderTargetView p.GetBuffer.out)
           Var.m_d3dRenderTargetView p.CreateRenderTargetView]
        ++ SAFE_RELEASE Var.frameBuffer p.GetBuffer.out ++ tail ∧
      self1 =
        { m_isStereo := self.m_isStereo
          m_d3dDevice := self.m_d3dDevice
          m_d3dContext := self.m_d3dContext
          m_swapChain := some swapChain
          m_d3dRenderTargetView := p.CreateRenderTargetView.out
          m_screenViewport := some (expectedViewports m self.m_isStereo)
          m_outputSize := { cx := m.FRAME_BUFFER_WIDTH, cy := m.FRAME_BUFFER_HEIGHT } } := by
  unfold CreateWindowSizeDependentResources at h
  cases hdev : self.m_d3dDevice with
  | none => simp [hdev] at h
  | some d3dDevice =>
  simp only [hdev] at h
  generalize hb1 : lines113to124 p _ = b1 at h
  rcases b1 with ⟨⟨hr0, dxgiFactory⟩, t124⟩ | ⟨hr0, v, t⟩ | t
  · simp only [] at h
    by_cases hf : FAILED hr0
    · simp only [hf, if_true, Outcome.returned.injEq] at h
      exact absurd hok ((not_SUCCEEDED_iff _).mpr (h.1 ▸ hf))
    · simp only [hf, if_false] at h
      obtain ⟨dxgiDevice, adapter, ho1, ho2, hs1, hs2, rfl, rfl, rfl⟩ :=
        lines113to124_next_succeeded _ _ _ _ _ hb1 hf
      cases hfac : p.GetParent.out with
      | none => simp [hfac] at h
      | some factory =>
      simp only [hfac] at h
      generalize hb2 : lines134to159 m p self d3dDevice hWnd _ = b2 at h
      rcases b2 with ⟨self159, t159⟩ | ⟨hr2, self145, t⟩ | t
      · simp only [] at h
        cases hsc : self159.m_swapChain with
        | none => simp [hsc] at h
        | some swapChain =>
        simp only [hsc] at h
        by_cases hgb : FAILED p.GetBuffer.hr
        · simp only [hgb, if_true, Outcome.returned.injEq] at h
          exact absurd hok ((not_SUCCEEDED_iff _).mpr (h.1 ▸ hgb))
        · simp only [hgb, if_false] at h
          by_cases hrt : FAILED p.CreateRenderTargetView.hr
          · simp only [hrt, if_true, Outcome.returned.injEq] at h
            exact absurd hok ((not_SUCCEEDED_iff _).mpr (h.1 ▸ hrt))
          · simp only [hrt, if_false] at h
            have key := lines134to159_next _ _ _ _ _ _ _ _ hb2
            cases hst : self159.m_isStereo with
            | true =>
              simp only [hst, if_true, Outcome.returned.injEq] at h
              obtain ⟨rfl, rfl, rfl⟩ := h
              rcases key with ⟨hq, rfl, rfl⟩ | ⟨f2, hq, hsucc, rfl, rfl⟩
              · refine ⟨d3dDevice, dxgiDevice, adapter, factory, swapChain, [], _, rfl, ho1, ho2,
                  rfl, hs1, hs2, (not_FAILED_iff _).mp hf, (not_FAILED_iff _).mp hgb, rfl,
                  Or.inl ⟨hq, hsc, rfl⟩, Or.inl ⟨hst, rfl⟩, ?_, ?_⟩
                · simp [SAFE_RELEASE]
                · simp [hst, ← hdev, ← hsc, expectedViewports, CD3D11_VIEWPORT]
              · simp only [] at hsc
                refine ⟨d3dDevice, dxgiDevice, adapter, factory, swapChain, _, _, rfl, ho1, ho2,
                  rfl, hs1, hs2, (not_FAILED_iff _).mp hf, (not_FAILED_iff _).mp hgb, rfl,
                  Or.inr ⟨f2, hq, hsucc, hsc, rfl⟩, Or.inl ⟨hst, rfl⟩, ?_, ?_⟩
                · simp [SAFE_RELEASE]
                · simp only [] at hst
                  simp [hst, ← hdev, ← hsc, expectedViewports, CD3D11_VIEWPORT]
            | false =>
              simp only [hst, Bool.false_eq_true, if_false] at h
              cases hctx : self159.m_d3dContext with
              | none => simp [hctx] at h
              | some d3dContext =>
              simp only [hctx, Outcome.returned.injEq] at h
              obtain ⟨rfl, rfl, rfl⟩ := h
              rcases key with ⟨hq, rfl, rfl⟩ | ⟨f2, hq, hsucc, rfl, rfl⟩
              · refine ⟨d3dDevice, dxgiDevice, adapter, factory, swapChain, [], _, rfl, ho1, ho2,
                  rfl, hs1, hs2, (not_FAILED_iff _).mp hf, (not_FAILED_iff _).mp hgb, rfl,
                  Or.inl ⟨hq, hsc, rfl⟩, Or.inr ⟨hst, d3dContext, hctx, rfl⟩, ?_, ?_⟩
                · simp [SAFE_RELEASE, expectedViewports, CD3D11_VIEWPORT]
                · simp [hst, ← hdev, ← hsc, ← hctx, expectedViewports, CD3D11_VIEWPORT]
              · simp only [] at hsc hst hctx
                refine ⟨d3dDevice, dxgiDevice, adapter, factory, swapChain, _, _, rfl, ho1, ho2,
                  rfl, hs1, hs2, (not_FAILED_iff _).mp hf, (not_FAILED_iff _).mp hgb, rfl,
                  Or.inr ⟨f2, hq, hsucc, hsc, rfl⟩, Or.inr ⟨hst, d3dContext, hctx, rfl⟩, ?_, ?_⟩
                · simp [SAFE_RELEASE, expectedViewports, CD3D11_VIEWPORT]
                · simp [hst, ← hdev, ← hsc, ← hctx, expectedViewports, CD3D11_VIEWPORT]
      · simp only [Outcome.returned.injEq] at h
        obtain ⟨rfl, rfl, rfl⟩ := h
        exact absurd hok ((not_SUCCEEDED_iff _).mpr (lines134to159_ret _ _ _ _ _ _ _ _ _ hb2).1)
      · exact absurd hb2 (lines134to159_ne_nullDeref _ _ _ _ _ _ _)
  · exact absurd hb1 (lines113to124_ne_ret _ _ _ _ _)
  · simp at h

/-! ## Sizing after a successful attach -/

/-- The conversion to `FLOAT` is exact up to `2 ^ 24`. -/
theorem FLOAT.cast_exact (n : Nat) (h : n ≤ 2 ^ 24) : (FLOAT.cast n).value = n := by
  rcases Nat.lt_or_eq_of_le h with hlt | rfl
  · have hs : significandShift n n = 0 := by
      cases n with
      | zero => rfl
      | succ k =>
        simp only [significandShift]
        exact if_pos hlt
    simp [FLOAT.cast, hs]
  · decide

/-- C2, the counterexample: stereo, with `FRAME_BUFFER_WIDTH = 16777217` (positive,
its double representable as an `int`) and `FRAME_BUFFER_HEIGHT = 720`, on the
platform where every call succeeds. The attach returns `S_OK` and the viewports it
stores have width `16777216.0f`, the second at x = `16777216.0f`: not the sizes and
corner that the claim states. -/
theorem attach_stereo_sizing_rounds :
    0 < roundingMacros.FRAME_BUFFER_WIDTH ∧ 0 < roundingMacros.FRAME_BUFFER_HEIGHT ∧
    2 * roundingMacros.FRAME_BUFFER_WIDTH < 2 ^ 31 ∧
    (CreateWindowSizeDependentResources roundingMacros examplePlatform
      (exampleConstructed true) exampleWindow).value = some 0 ∧
    (CreateWindowSizeDependentResources roundingMacros examplePlatform
      (exampleConstructed true) exampleWindow).finalState.m_screenViewport =
      some [{ TopLeftX := { value := 0 }, TopLeftY := { value := 0 },
              Width := { value := 16777216 }, Height := { value := 720 },
              MinDepth := { value := 0 }, MaxDepth := { value := 1 } },
            { TopLeftX := { value := 16777216 }, TopLeftY := { value := 0 },
              Width := { value := 16777216 }, Height := { value := 720 },
              MinDepth := { value := 0 }, MaxDepth := { value := 1 } }] ∧
    ¬ ∃ left right,
      (CreateWindowSizeDependentResources roundingMacros examplePlatform
        (exampleConstructed true) exampleWindow).finalState.m_screenViewport
        = some [left, right] ∧
      left.TopLeftX.value = 0 ∧ left.TopLeftY.value = 0 ∧
      left.Width.value = roundingMacros.FRAME_BUFFER_WIDTH ∧
      left.Height.value = roundingMacros.FRAME_BUFFER_HEIGHT ∧
      right.TopLeftX.value = roundingMacros.FRAME_BUFFER_WIDTH ∧ right.TopLeftY.value = 0 ∧
      right.Width.value = roundingMacros.FRAME_BUFFER_WIDTH ∧
      right.Height.value = roundingMacros.FRAME_BUFFER_HEIGHT := by
  have harr : (CreateWindowSizeDependentResources roundingMacros examplePlatform
      (exampleConstructed true) exampleWindow).finalState.m_screenViewport =
      some [{ TopLeftX := { value := 0 }, TopLeftY := { value := 0 },
              Width := { value := 16777216 }, Height := { value := 720 },
              MinDepth := { value := 0 }, MaxDepth := { value := 1 } },
            { TopLeftX := { value := 16777216 }, TopLeftY := { value := 0 },
              Width := { value := 16777216 }, Height := { value := 720 },
              MinDepth := { value := 0 }, MaxDepth := { value := 1 } }] := by
    decide
  refine ⟨by decide, by decide, by decide, by decide, harr, ?_⟩
  rintro ⟨left, right, h, -, -, hw, -⟩
  rw [harr] at h
  simp only [Option.some.injEq, List.cons.injEq, and_true] at h
  obtain ⟨rfl, -⟩ := h
  exact absurd hw (by decide)

/-- C2, amended: with `FRAME_BUFFER_WIDTH` and `FRAME_BUFFER_HEIGHT` exactly
representable as `FLOAT` (every value up to `2 ^ 24` is, by `FLOAT.cast_exact`) and
`2 * FRAME_BUFFER_WIDTH` representable as an `int`, every first attach (no swap
chain held on entry) of a stereo object that returns a success code has requested
exactly one swap chain, of width `2 * FRAME_BUFFER_WIDTH` and height
`FRAME_BUFFER_HEIGHT`; the viewport array has exactly two entries, the first at
(0, 0) and the second at (FRAME_BUFFER_WIDTH, 0), each of size
(FRAME_BUFFER_WIDTH, FRAME_BUFFER_HEIGHT); and the run holds no call of
`RSSetViewports`. -/
theorem attach_stereo_sizing (m : Macros) (p : Platform) (self : DeviceResources)
    (hWnd : Handle) (hr : HRESULT) (self1 : DeviceResources) (trace : List Event)
    (hstereo : self.m_isStereo = true)
    (hfirst : self.m_swapChain = none)
    (hrepr : 2 * m.FRAME_BUFFER_WIDTH < 2 ^ 31)
    (hwidth : (FLOAT.cast m.FRAME_BUFFER_WIDTH).value = m.FRAME_BUFFER_WIDTH)
    (hheight : (FLOAT.cast m.FRAME_BUFFER_HEIGHT).value = m.FRAME_BUFFER_HEIGHT)
    (hret : CreateWindowSizeDependentResources m p self hWnd = Outcome.returned hr self1 trace)
    (hok : SUCCEEDED hr) :
    (∃ desc, swapChainRequests trace = [desc] ∧
      desc.Width = 2 * m.FRAME_BUFFER_WIDTH ∧ desc.Height = m.FRAME_BUFFER_HEIGHT) ∧
    (∃ left right, self1.m_screenViewport = some [left, right] ∧
      left.TopLeftX.value = 0 ∧ left.TopLeftY.value = 0 ∧
      left.Width.value = m.FRAME_BUFFER_WIDTH ∧
      left.Height.value = m.FRAME_BUFFER_HEIGHT ∧
      right.TopLeftX.value = m.FRAME_BUFFER_WIDTH ∧ right.TopLeftY.value = 0 ∧
      right.Width.value = m.FRAME_BUFFER_WIDTH ∧
      right.Height.value = m.FRAME_BUFFER_HEIGHT) ∧
    viewportBinds trace = [] := by
  obtain ⟨d3dDevice, dxgiDevice, adapter, factory, swapChain, mid, tail, -, -, -, -, -, -, -, -,
    -, hmid, htail, rfl, rfl⟩ := attach_returned_succeeded m p self hWnd hr self1 trace hret hok
  have hh := m.height_int
  rcases hmid with ⟨-, hsc, -⟩ | ⟨dxgiFactory2, -, -, -, rfl⟩
  · rw [hfirst] at hsc
    exact absurd hsc (by simp)
  · rcases htail with ⟨-, rfl⟩ | ⟨hmono, -⟩
    · refine ⟨⟨swapChainDesc m self, ?_, ?_, ?_⟩, ?_, ?_⟩
      · cases hb : p.GetBuffer.out <;>
          simp [swapChainRequests, Event.swapChainRequest, SAFE_RELEASE]
      · simp only [swapChainDesc, hstereo, if_true, Nat.shiftLeft_eq]
        omega
      · simp only [swapChainDesc]
        omega
      · simp only [hstereo, expectedViewports, if_true]
        exact ⟨_, _, rfl, rfl, rfl, hwidth, hheight, hwidth, rfl, hwidth, hheight⟩
      · cases hb : p.GetBuffer.out <;>
          simp [viewportBinds, Event.viewportBind, SAFE_RELEASE]
    · rw [hstereo] at hmono
      exact absurd hmono (by simp)

/-- C2 amended, at the scenario S2 of the spec: stereo, 1280 by 720. -/
theorem attach_stereo_sizing_witness :
    (∃ desc, swapChainRequests
        (CreateWindowSizeDependentResources exampleMacros examplePlatform
          (exampleConstructed true) exampleWindow).events = [desc] ∧
      desc.Width = 2 * 1280 ∧ desc.Height = 720) ∧
    (∃ left right,
      (CreateWindowSizeDependentResources exampleMacros examplePlatform
          (exampleConstructed true) exampleWindow).finalState.m_screenViewport
        = some [left, right] ∧
      left.TopLeftX.value = 0 ∧ left.TopLeftY.value = 0 ∧
      left.Width.value = 1280 ∧ left.Height.value = 720 ∧
      right.TopLeftX.value = 1280 ∧ right.TopLeftY.value = 0 ∧
      right.Width.value = 1280 ∧ right.Height.value = 720) ∧
    viewportBinds
      (CreateWindowSizeDependentResources exampleMacros examplePlatform
        (exampleConstructed true) exampleWindow).events = [] :=
  attach_stereo_sizing exampleMacros examplePlatform (exampleConstructed true) exampleWindow 0
    _ _ rfl rfl (by decide) (by decide) (by decide) (by decide) (by decide)

/-- C3, the counterexample: mono, with `FRAME_BUFFER_WIDTH = 16777217` and
`FRAME_BUFFER_HEIGHT = 720`, both positive, on the platform where every call
succeeds. The attach returns `S_OK` and the viewport it stores and binds has width
`16777216.0f`: not the size that the claim states. -/
theorem attach_mono_sizing_rounds :
    0 < roundingMacros.FRAME_BUFFER_WIDTH ∧ 0 < roundingMacros.FRAME_BUFFER_HEIGHT ∧
    (CreateWindowSizeDependentResources roundingMacros examplePlatform
      (exampleConstructed false) exampleWindow).value = some 0 ∧
    (CreateWindowSizeDependentResources roundingMacros examplePlatform
      (exampleConstructed false) exampleWindow).finalState.m_screenViewport =
      some [{ TopLeftX := { value := 0 }, TopLeftY := { value := 0 },
              Width := { value := 16777216 }, Height := { value := 720 },
              MinDepth := { value := 0 }, MaxDepth := { value := 1 } }] ∧
    ¬ ∃ viewport,
      (CreateWindowSizeDependentResources roundingMacros examplePlatform
        (exampleConstructed false) exampleWindow).finalState.m_screenViewport
        = some [viewport] ∧
      viewport.TopLeftX.value = 0 ∧ viewport.TopLeftY.value = 0 ∧
      viewport.Width.value = roundingMacros.FRAME_BUFFER_WIDTH ∧
      viewport.Height.value = roundingMacros.FRAME_BUFFER_HEIGHT := by
  have harr : (CreateWindowSizeDependentResources roundingMacros examplePlatform
      (exampleConstructed false) exampleWindow).finalState.m_screenViewport =
      some [{ TopLeftX := { value := 0 }, TopLeftY := { value := 0 },
              Width := { value := 16777216 }, Height := { value := 720 },
              MinDepth := { value := 0 }, MaxDepth := { value := 1 } }] := by
    decide
  refine ⟨by decide, by decide, by decide, harr, ?_⟩
  rintro ⟨viewport, h, -, -, hw, -⟩
  rw [harr] at h
  simp only [Option.some.injEq, List.cons.injEq, and_true] at h
  subst h
  exact absurd hw (by decide)

/-- C3, amended: with `FRAME_BUFFER_WIDTH` and `FRAME_BUFFER_HEIGHT` exactly
representable as `FLOAT` (every value up to `2 ^ 24` is, by `FLOAT.cast_exact`),
every first attach (no swap chain held on entry) of a mono object that returns a
success code has requested exactly one swap chain, of width `FRAME_BUFFER_WIDTH` and
height `FRAME_BUFFER_HEIGHT`; the viewport array has exactly one entry, at (0, 0)
and of size (FRAME_BUFFER_WIDTH, FRAME_BUFFER_HEIGHT); and the run holds exactly one
call of `RSSetViewports`, made on the context member with count 1 and that entry. -/
theorem attach_mono_sizing (m : Macros) (p : Platform) (self : DeviceResources)
    (hWnd : Handle) (hr : HRESULT) (self1 : DeviceResources) (trace : List Event)
    (hmono : self.m_isStereo = false)
    (hfirst : self.m_swapChain = none)
    (hwidth : (FLOAT.cast m.FRAME_BUFFER_WIDTH).value = m.FRAME_BUFFER_WIDTH)
    (hheight : (FLOAT.cast m.FRAME_BUFFER_HEIGHT).value = m.FRAME_BUFFER_HEIGHT)
    (hret : CreateWindowSizeDependentResources m p self hWnd = Outcome.returned hr self1 trace)
    (hok : SUCCEEDED hr) :
    (∃ desc, swapChainRequests trace = [desc] ∧
      desc.Width = m.FRAME_BUFFER_WIDTH ∧ desc.Height = m.FRAME_BUFFER_HEIGHT) ∧
    ∃ viewport d3dContext, self1.m_screenViewport = some [viewport] ∧
      viewport.TopLeftX.value = 0 ∧ viewport.TopLeftY.value = 0 ∧
      viewport.Width.value = m.FRAME_BUFFER_WIDTH ∧
      viewport.Height.value = m.FRAME_BUFFER_HEIGHT ∧
      self.m_d3dContext = some d3dContext ∧
      viewportBinds trace = [(Var.m_d3dContext, d3dContext, 1, [viewport])] := by
  obtain ⟨d3dDevice, dxgiDevice, adapter, factory, swapChain, mid, tail, -, -, -, -, -, -, -, -,
    -, hmid, htail, rfl, rfl⟩ := attach_returned_succeeded m p self hWnd hr self1 trace hret hok
  have hw := m.width_int
  have hh := m.height_int
  rcases hmid with ⟨-, hsc, -⟩ | ⟨dxgiFactory2, -, -, -, rfl⟩
  · rw [hfirst] at hsc
    exact absurd hsc (by simp)
  · rcases htail with ⟨hstereo, -⟩ | ⟨-, d3dContext, hctx, rfl⟩
    · rw [hmono] at hstereo
      exact absurd hstereo (by simp)
    · refine ⟨⟨swapChainDesc m self, ?_, ?_, ?_⟩, ?_⟩
      · cases hb : p.GetBuffer.out <;>
          simp [swapChainRequests, Event.swapChainRequest, SAFE_RELEASE]
      · simp only [swapChainDesc, hmono, Bool.false_eq_true, if_false]
        omega
      · simp only [swapChainDesc]
        omega
      · simp only [hmono, expectedViewports, Bool.false_eq_true, if_false]
        refine ⟨_, d3dContext, rfl, rfl, rfl, hwidth, hheight, hctx, ?_⟩
        cases hb : p.GetBuffer.out <;>
          simp [viewportBinds, Event.viewportBind, SAFE_RELEASE]

/-- C3 amended, at the scenario S1 of the spec: mono, 1280 by 720, context 4. -/
theorem attach_mono_sizing_witness :
    (∃ desc, swapChainRequests
        (CreateWindowSizeDependentResources exampleMacros examplePlatform
          (exampleConstructed false) exampleWindow).events = [desc] ∧
      desc.Width = 1280 ∧ desc.Height = 720) ∧
    ∃ viewport d3dContext,
      (CreateWindowSizeDependentResources exampleMacros examplePlatform
          (exampleConstructed false) exampleWindow).finalState.m_screenViewport
        = some [viewport] ∧
      viewport.TopLeftX.value = 0 ∧ viewport.TopLeftY.value = 0 ∧
      viewport.Width.value = 1280 ∧ viewport.Height.value = 720 ∧
      (exampleConstructed false).m_d3dContext = some d3dContext ∧
      viewportBinds
        (CreateWindowSizeDependentResources exampleMacros examplePlatform
          (exampleConstructed false) exampleWindow).events
        = [(Var.m_d3dContext, d3dContext, 1, [viewport])] :=
  attach_mono_sizing exampleMacros examplePlatform (exampleConstructed false) exampleWindow 0
    _ _ rfl rfl (by decide) (by decide) (by decide) (by decide)

/-- C4: for either value of the stereo flag, after every attach that returns a
success code `GetOutputSize` returns (FRAME_BUFFER_WIDTH, FRAME_BUFFER_HEIGHT); for
a positive width that is not the doubled width. -/
theorem attach_output_size (m : Macros) (p : Platform) (self : DeviceResources)
    (hWnd : Handle) (hr : HRESULT) (self1 : DeviceResources) (trace : List Event)
    (hret : CreateWindowSizeDependentResources m p self hWnd = Outcome.returned hr self1 trace)
    (hok : SUCCEEDED hr) :
    GetOutputSize self1 = { cx := m.FRAME_BUFFER_WIDTH, cy := m.FRAME_BUFFER_HEIGHT } ∧
    (0 < m.FRAME_BUFFER_WIDTH → (GetOutputSize self1).cx ≠ 2 * m.FRAME_BUFFER_WIDTH) := by
  obtain ⟨d3dDevice, dxgiDevice, adapter, factory, swapChain, mid, tail, -, -, -, -, -, -, -, -,
    -, -, -, -, rfl⟩ := attach_returned_succeeded m p self hWnd hr self1 trace hret hok
  refine ⟨rfl, fun hpos => ?_⟩
  simp only [GetOutputSize]
  omega

/-- C4, at the scenario S2 of the spec: stereo, and the size reported is 1280 by 720. -/
theorem attach_output_size_witness :
    GetOutputSize (CreateWindowSizeDependentResources exampleMacros examplePlatform
        (exampleConstructed true) exampleWindow).finalState = { cx := 1280, cy := 720 } ∧
    (0 < 1280 →
      (GetOutputSize (CreateWindowSizeDependentResources exampleMacros examplePlatform
        (exampleConstructed true) exampleWindow).finalState).cx ≠ 2 * 1280) :=
  attach_output_size exampleMacros examplePlatform (exampleConstructed true) exampleWindow 0
    _ _ rfl (by decide)

/-! ## Present -/

/-- C9: in every state left by an attach that returned a success code, and whatever
code the swap chain answers, `Present` makes exactly one call, `Present(1, 0)` on
the owned swap chain, returns nothing, and leaves the object as it was. -/
theorem present_once (m : Macros) (p : Platform) (self : DeviceResources)
    (hWnd : Handle) (hr : HRESULT) (self1 : DeviceResources) (trace : List Event)
    (hret : CreateWindowSizeDependentResources m p self hWnd = Outcome.returned hr self1 trace)
    (hok : SUCCEEDED hr) (answer : HRESULT) :
    ∃ swapChain, self1.m_swapChain = some swapChain ∧
      Present answer self1 =
        Outcome.returned () self1 [Event.act Var.m_swapChain swapChain (Action.Present 1 0)] := by
  obtain ⟨d3dDevice, dxgiDevice, adapter, factory, swapChain, mid, tail, -, -, -, -, -, -, -, -,
    -, -, -, -, rfl⟩ := attach_returned_succeeded m p self hWnd hr self1 trace hret hok
  exact ⟨swapChain, rfl, rfl⟩

/-- C9, after the mono attach of scenario S1, the swap chain answering a failure code. -/
theorem present_once_witness :
    ∃ swapChain,
      (CreateWindowSizeDependentResources exampleMacros examplePlatform
        (exampleConstructed false) exampleWindow).finalState.m_swapChain = some swapChain ∧
      Present (-2005270526)
          (CreateWindowSizeDependentResources exampleMacros examplePlatform
            (exampleConstructed false) exampleWindow).finalState =
        Outcome.returned ()
          (CreateWindowSizeDependentResources exampleMacros examplePlatform
            (exampleConstructed false) exampleWindow).finalState
          [Event.act Var.m_swapChain swapChain (Action.Present 1 0)] :=
  present_once exampleMacros examplePlatform (exampleConstructed false) exampleWindow 0
    _ _ rfl (by decide) (-2005270526)

/-! ## Construction -/

/-- Every `CreateDeviceResources` that returns a success code went through all of
its steps. -/
theorem create_returned_succeeded (p : Platform) (self : DeviceResources) (hr : HRESULT)
    (self1 : DeviceResources) (trace : List Event)
    (h : CreateDeviceResources p self = Outcome.returned hr self1 trace) (hok : SUCCEEDED hr) :
    ∃ device context,
      p.D3D11CreateDevice.device = some device ∧ p.D3D11CreateDevice.context = some context ∧
      SUCCEEDED p.D3D11CreateDevice.hr ∧ hr = p.QueryDevice1.hr ∧
      self1 = { self with m_d3dDevice := p.QueryDevice1.out, m_d3dContext := p.QueryContext1.out } ∧
      trace =
        [Event.D3D11CreateDevice p.D3D11CreateDevice,
         Event.call Var.device device (Method.QueryInterface IID.ID3D11Device1)
           Var.m_d3dDevice p.QueryDevice1,
         Event.call Var.context context (Method.QueryInterface IID.ID3D11DeviceContext1)
           Var.m_d3dContext p.QueryContext1,
         Event.act Var.context context Action.Release,
         Event.act Var.device device Action.Release] := by
  unfold CreateDeviceResources at h
  by_cases hc : FAILED p.D3D11CreateDevice.hr
  · simp only [hc, if_true, Outcome.returned.injEq] at h
    exact absurd hok ((not_SUCCEEDED_iff _).mpr (h.1 ▸ hc))
  · simp only [hc, if_false] at h
    cases hdev : p.D3D11CreateDevice.device with
    | none => simp [hdev] at h
    | some device =>
    simp only [hdev] at h
    by_cases hq : SUCCEEDED p.QueryDevice1.hr
    · simp only [hq, if_true] at h
      cases hctx : p.D3D11CreateDevice.context with
      | none => simp [hctx] at h
      | some context =>
      simp only [hctx, Outcome.returned.injEq] at h
      obtain ⟨rfl, rfl, rfl⟩ := h
      exact ⟨device, context, rfl, rfl, (not_FAILED_iff _).mp hc, rfl, rfl,
        by simp [SAFE_RELEASE]⟩
    · simp only [hq, if_false, Outcome.returned.injEq] at h
      exact absurd (h.1 ▸ hok) hq

/-- The constructor sets the stereo flag and writes none of the three members that
the attach fills: a constructed object has no swap chain when its storage had none. -/
theorem new_keeps_attach_members (p : Platform) (init self : DeviceResources)
    (isStereo : Bool) (trace0 : List Event)
    (h : DeviceResources.new p init isStereo = Outcome.returned () self trace0) :
    self.m_isStereo = isStereo ∧ self.m_swapChain = init.m_swapChain ∧
    self.m_d3dRenderTargetView = init.m_d3dRenderTargetView ∧
    self.m_screenViewport = init.m_screenViewport := by
  have keeps : ∀ s : DeviceResources,
      (CreateDeviceResources p s).finalState.m_isStereo = s.m_isStereo ∧
      (CreateDeviceResources p s).finalState.m_swapChain = s.m_swapChain ∧
      (CreateDeviceResources p s).finalState.m_d3dRenderTargetView = s.m_d3dRenderTargetView ∧
      (CreateDeviceResources p s).finalState.m_screenViewport = s.m_screenViewport := by
    intro s
    unfold CreateDeviceResources
    simp only []
    repeat' split
    all_goals exact ⟨rfl, rfl, rfl, rfl⟩
  have hk := keeps { init with m_isStereo := isStereo }
  unfold DeviceResources.new at h
  cases hc : CreateDeviceResources p { init with m_isStereo := isStereo } with
  | nullDeref s t => simp [hc] at h
  | returned v s t =>
    rw [hc] at hk
    simp only [hc, Outcome.returned.injEq, true_and] at h
    obtain ⟨rfl, -⟩ := h
    exact hk

/-- On `examplePlatform`, the constructor turns `exampleInit` into
`exampleConstructed`. -/
theorem new_example (isStereo : Bool) :
    (DeviceResources.new examplePlatform exampleInit isStereo).finalState =
      exampleConstructed isStereo := by
  cases isStereo <;> rfl

/-- C5: `CreateDeviceResources` returns the code of `D3D11CreateDevice` when that
call fails, and then stores nothing (the object is unchanged and no other call is
made). When the creation succeeds with its two pointers, it returns the code of the
`ID3D11Device1` query, whose pointer is the new device member; the context query is
made exactly when the device query succeeded, its pointer is then the new context
member (null when the query failed and nulled its out-parameter), and otherwise the
context member is not written. Whatever the context query answers, the value
returned is the same. -/
theorem create_device_resources_codes (p : Platform) (self : DeviceResources) :
    (FAILED p.D3D11CreateDevice.hr →
      CreateDeviceResources p self =
        Outcome.returned p.D3D11CreateDevice.hr self
          [Event.D3D11CreateDevice p.D3D11CreateDevice]) ∧
    (SUCCEEDED p.D3D11CreateDevice.hr →
      p.D3D11CreateDevice.device.isSome = true → p.D3D11CreateDevice.context.isSome = true →
      ∃ self1 trace,
        CreateDeviceResources p self = Outcome.returned p.QueryDevice1.hr self1 trace ∧
        self1.m_d3dDevice = p.QueryDevice1.out ∧
        ((contextUpgrades trace).length = if SUCCEEDED p.QueryDevice1.hr then 1 else 0) ∧
        (SUCCEEDED p.QueryDevice1.hr → self1.m_d3dContext = p.QueryContext1.out) ∧
        (SUCCEEDED p.QueryDevice1.hr → FAILED p.QueryContext1.hr →
          p.QueryContext1.out = none →
          SUCCEEDED p.QueryDevice1.hr ∧ self1.m_d3dDevice = p.QueryDevice1.out ∧
            self1.m_d3dContext = none) ∧
        (FAILED p.QueryDevice1.hr → self1.m_d3dContext = self.m_d3dContext)) ∧
    (∀ answer : CallResult,
      (CreateDeviceResources { p with QueryContext1 := answer } self).value =
        (CreateDeviceResources p self).value) := by
  refine ⟨fun hf => ?_, fun hs hdev hctx => ?_, fun answer => ?_⟩
  · simp [CreateDeviceResources, hf]
  · obtain ⟨device, hdev⟩ := Option.isSome_iff_exists.mp hdev
    obtain ⟨context, hctx⟩ := Option.isSome_iff_exists.mp hctx
    have hnf : ¬ FAILED p.D3D11CreateDevice.hr := (not_FAILED_iff _).mpr hs
    by_cases hq : SUCCEEDED p.QueryDevice1.hr
    · have heq : CreateDeviceResources p self =
          Outcome.returned p.QueryDevice1.hr
            { self with m_d3dDevice := p.QueryDevice1.out, m_d3dContext := p.QueryContext1.out }
            [Event.D3D11CreateDevice p.D3D11CreateDevice,
             Event.call Var.device device (Method.QueryInterface IID.ID3D11Device1)
               Var.m_d3dDevice p.QueryDevice1,
             Event.call Var.context context (Method.QueryInterface IID.ID3D11DeviceContext1)
               Var.m_d3dContext p.QueryContext1,
             Event.act Var.context context Action.Release,
             Event.act Var.device device Action.Release] := by
        simp [CreateDeviceResources, hnf, hdev, hq, hctx, SAFE_RELEASE]
      refine ⟨_, _, heq, rfl, ?_, fun _ => rfl, fun _ _ hnull => ⟨hq, rfl, hnull⟩,
        fun hfail => absurd hq ((not_SUCCEEDED_iff _).mpr hfail)⟩
      simp [contextUpgrades, hq]
    · have heq : CreateDeviceResources p self =
          Outcome.returned p.QueryDevice1.hr
            { self with m_d3dDevice := p.QueryDevice1.out }
            [Event.D3D11CreateDevice p.D3D11CreateDevice,
             Event.call Var.device device (Method.QueryInterface IID.ID3D11Device1)
               Var.m_d3dDevice p.QueryDevice1,
             Event.act Var.context context Action.Release,
             Event.act Var.device device Action.Release] := by
        simp [CreateDeviceResources, hnf, hdev, hq, hctx, SAFE_RELEASE]
      refine ⟨_, _, heq, rfl, ?_, fun h => absurd h hq, fun h => absurd h hq, fun _ => rfl⟩
      simp [contextUpgrades, hq]
  · unfold CreateDeviceResources
    simp only []
    repeat' split
    all_goals rfl

/-- C5, where the device upgrade succeeds and the context upgrade fails with
`E_NOINTERFACE`: the construction returns `S_OK`, device 3 is stored and the context
member is null. -/
theorem create_device_resources_codes_witness :
    ∃ self1 trace,
      CreateDeviceResources
          { examplePlatform with QueryContext1 := { hr := -2147467262, out := none } }
          exampleInit = Outcome.returned 0 self1 trace ∧
      self1.m_d3dDevice = some 3 ∧ self1.m_d3dContext = none :=
  have h := (create_device_resources_codes
    { examplePlatform with QueryContext1 := { hr := -2147467262, out := none } }
    exampleInit).2.1 (by decide) rfl rfl
  h.elim fun self1 h1 => h1.elim fun trace h2 =>
    ⟨self1, trace, h2.1, h2.2.1, (h2.2.2.2.2.1 (by decide) (by decide) rfl).2.2⟩

/-! ## Teardown -/

/-- C7: whatever members are null, `CleanupResources` first executes
`delete []` on the viewport array and then calls `Release` on the context, the
render-target view, the swap chain and the device, in that order, once for each one
that is non-null and not at all for a null one; it makes no other call. -/
theorem cleanup_order (self : DeviceResources) :
    (CleanupResources self).head? = some (Event.deleteArray self.m_screenViewport) ∧
    releaseCalls (CleanupResources self) =
      [dueRelease Var.m_d3dContext self.m_d3dContext,
       dueRelease Var.m_d3dRenderTargetView self.m_d3dRenderTargetView,
       dueRelease Var.m_swapChain self.m_swapChain,
       dueRelease Var.m_d3dDevice self.m_d3dDevice].filterMap id ∧
    (CleanupResources self).length = 1 + (releaseCalls (CleanupResources self)).length := by
  cases h1 : self.m_d3dContext <;> cases h2 : self.m_d3dRenderTargetView <;>
    cases h3 : self.m_swapChain <;> cases h4 : self.m_d3dDevice <;>
    simp [CleanupResources, SAFE_RELEASE, releaseCalls, Event.releaseCall, dueRelease, h1, h2,
      h3, h4]

/-! ## The two paths of the attach that do not clean up -/

/-- The six steps of the attach other than the `IDXGIFactory2` query: when one of
them is the first call to fail, the earlier ones having succeeded with a non-null
pointer, the attach returns the code of that call and performs no later step. -/
theorem attach_short_circuits (m : Macros) (p : Platform) (self : DeviceResources)
    (hWnd : Handle) (hdev : self.m_d3dDevice.isSome = true) :
    (FAILED p.QueryDXGIDevice.hr →
      (CreateWindowSizeDependentResources m p self hWnd).value = some p.QueryDXGIDevice.hr ∧
      stepsOf (CreateWindowSizeDependentResources m p self hWnd).events =
        [Step.QueryDXGIDevice]) ∧
    (p.QueryDXGIDevice.succeeds → FAILED p.GetAdapter.hr →
      (CreateWindowSizeDependentResources m p self hWnd).value = some p.GetAdapter.hr ∧
      stepsOf (CreateWindowSizeDependentResources m p self hWnd).events =
        [Step.QueryDXGIDevice, Step.GetAdapter]) ∧
    (p.QueryDXGIDevice.succeeds → p.GetAdapter.succeeds → FAILED p.GetParent.hr →
      (CreateWindowSizeDependentResources m p self hWnd).value = some p.GetParent.hr ∧
      stepsOf (CreateWindowSizeDependentResources m p self hWnd).events =
        [Step.QueryDXGIDevice, Step.GetAdapter, Step.GetParent]) ∧
    (p.QueryDXGIDevice.succeeds → p.GetAdapter.succeeds → p.GetParent.succeeds →
      p.QueryFactory2.succeeds → FAILED p.CreateSwapChainForHwnd.hr →
      (CreateWindowSizeDependentResources m p self hWnd).value =
        some p.CreateSwapChainForHwnd.hr ∧
      stepsOf (CreateWindowSizeDependentResources m p self hWnd).events =
        [Step.QueryDXGIDevice, Step.GetAdapter, Step.GetParent, Step.QueryFactory2,
         Step.CreateSwapChainForHwnd]) ∧
    (p.QueryDXGIDevice.succeeds → p.GetAdapter.succeeds → p.GetParent.succeeds →
      p.QueryFactory2.succeeds → p.CreateSwapChainForHwnd.succeeds → FAILED p.GetBuffer.hr →
      (CreateWindowSizeDependentResources m p self hWnd).value = some p.GetBuffer.hr ∧
      stepsOf (CreateWindowSizeDependentResources m p self hWnd).events =
        [Step.QueryDXGIDevice, Step.GetAdapter, Step.GetParent, Step.QueryFactory2,
         Step.CreateSwapChainForHwnd, Step.GetBuffer]) ∧
    (p.QueryDXGIDevice.succeeds → p.GetAdapter.succeeds → p.GetParent.succeeds →
      p.QueryFactory2.succeeds → p.CreateSwapChainForHwnd.succeeds → p.GetBuffer.succeeds →
      FAILED p.CreateRenderTargetView.hr →
      (CreateWindowSizeDependentResources m p self hWnd).value =
        some p.CreateRenderTargetView.hr ∧
      stepsOf (CreateWindowSizeDependentResources m p self hWnd).events =
        [Step.QueryDXGIDevice, Step.GetAdapter, Step.GetParent, Step.QueryFactory2,
         Step.CreateSwapChainForHwnd, Step.GetBuffer, Step.CreateRenderTargetView]) := by
  obtain ⟨d3dDevice, hdev⟩ := Option.isSome_iff_exists.mp hdev
  refine ⟨?_, ?_, ?_, ?_, ?_, ?_⟩
  · intro f1
    have n1 : ¬ SUCCEEDED p.QueryDXGIDevice.hr := (not_SUCCEEDED_iff _).mpr f1
    simp [CreateWindowSizeDependentResources, lines113to124, Outcome.value, Outcome.events,
      stepsOf, Event.step, hdev, n1, f1]
  · rintro ⟨h1, o1⟩ f2
    obtain ⟨dxgiDevice, o1⟩ := Option.isSome_iff_exists.mp o1
    have n2 : ¬ SUCCEEDED p.GetAdapter.hr := (not_SUCCEEDED_iff _).mpr f2
    simp [CreateWindowSizeDependentResources, lines113to124, Outcome.value, Outcome.events,
      stepsOf, Event.step, hdev, h1, o1, n2, f2]
  · rintro ⟨h1, o1⟩ ⟨h2, o2⟩ f3
    obtain ⟨dxgiDevice, o1⟩ := Option.isSome_iff_exists.mp o1
    obtain ⟨adapter, o2⟩ := Option.isSome_iff_exists.mp o2
    simp [CreateWindowSizeDependentResources, lines113to124, Outcome.value, Outcome.events,
      stepsOf, Event.step, hdev, h1, o1, h2, o2, f3]
  · rintro ⟨h1, o1⟩ ⟨h2, o2⟩ ⟨h3, o3⟩ ⟨-, o4⟩ f5
    obtain ⟨dxgiDevice, o1⟩ := Option.isSome_iff_exists.mp o1
    obtain ⟨adapter, o2⟩ := Option.isSome_iff_exists.mp o2
    obtain ⟨factory, o3⟩ := Option.isSome_iff_exists.mp o3
    obtain ⟨dxgiFactory2, o4⟩ := Option.isSome_iff_exists.mp o4
    have n3 : ¬ FAILED p.GetParent.hr := (not_FAILED_iff _).mpr h3
    simp [CreateWindowSizeDependentResources, lines113to124, lines134to159, Outcome.value,
      Outcome.events, stepsOf, Event.step, hdev, h1, o1, h2, o2, n3, o3, o4, f5]
  · rintro ⟨h1, o1⟩ ⟨h2, o2⟩ ⟨h3, o3⟩ ⟨-, o4⟩ ⟨h5, o5⟩ f6
    obtain ⟨dxgiDevice, o1⟩ := Option.isSome_iff_exists.mp o1
    obtain ⟨adapter, o2⟩ := Option.isSome_iff_exists.mp o2
    obtain ⟨factory, o3⟩ := Option.isSome_iff_exists.mp o3
    obtain ⟨dxgiFactory2, o4⟩ := Option.isSome_iff_exists.mp o4
    obtain ⟨swapChain, o5⟩ := Option.isSome_iff_exists.mp o5
    have n3 : ¬ FAILED p.GetParent.hr := (not_FAILED_iff _).mpr h3
    have n5 : ¬ FAILED p.CreateSwapChainForHwnd.hr := (not_FAILED_iff _).mpr h5
    simp [CreateWindowSizeDependentResources, lines113to124, lines134to159, Outcome.value,
      Outcome.events, stepsOf, Event.step, SAFE_RELEASE, hdev, h1, o1, h2, o2, n3, o3, o4, n5,
      o5, f6]
  · rintro ⟨h1, o1⟩ ⟨h2, o2⟩ ⟨h3, o3⟩ ⟨-, o4⟩ ⟨h5, o5⟩ ⟨h6, o6⟩ f7
    obtain ⟨dxgiDevice, o1⟩ := Option.isSome_iff_exists.mp o1
    obtain ⟨adapter, o2⟩ := Option.isSome_iff_exists.mp o2
    obtain ⟨factory, o3⟩ := Option.isSome_iff_exists.mp o3
    obtain ⟨dxgiFactory2, o4⟩ := Option.isSome_iff_exists.mp o4
    obtain ⟨swapChain, o5⟩ := Option.isSome_iff_exists.mp o5
    obtain ⟨frameBuffer, o6⟩ := Option.isSome_iff_exists.mp o6
    have n3 : ¬ FAILED p.GetParent.hr := (not_FAILED_iff _).mpr h3
    have n5 : ¬ FAILED p.CreateSwapChainForHwnd.hr := (not_FAILED_iff _).mpr h5
    have n6 : ¬ FAILED p.GetBuffer.hr := (not_FAILED_iff _).mpr h6
    simp [CreateWindowSizeDependentResources, lines113to124, lines134to159, Outcome.value,
      Outcome.events, stepsOf, Event.step, SAFE_RELEASE, hdev, h1, o1, h2, o2, n3, o3, o4, n5,
      o5, n6, o6, f7]

/-- C1, the failing input: on the constructed mono object, with the `IDXGIFactory2`
query the first call to fail (`E_NOINTERFACE`, null out-pointer), the attach does
not return that code: line 134 skips the swap-chain block, line 162 releases the
factory, and line 166 calls `GetBuffer` through the null `m_swapChain`. -/
theorem attach_factory2_failure_runs_on :
    CreateWindowSizeDependentResources exampleMacros
        { examplePlatform with QueryFactory2 := { hr := E_NOINTERFACE, out := none } }
        (exampleConstructed false) exampleWindow =
      Outcome.nullDeref (exampleConstructed false)
        [Event.call Var.m_d3dDevice 3 (Method.QueryInterface IID.IDXGIDevice) Var.dxgiDevice
           { hr := 0, out := some 5 },
         Event.call Var.dxgiDevice 5 Method.GetAdapter Var.adapter { hr := 0, out := some 6 },
         Event.call Var.adapter 6 (Method.GetParent IID.IDXGIFactory1) Var.dxgiFactory
           { hr := 0, out := some 7 },
         Event.act Var.adapter 6 Action.Release,
         Event.act Var.dxgiDevice 5 Action.Release,
         Event.call Var.dxgiFactory 7 (Method.QueryInterface IID.IDXGIFactory2) Var.dxgiFactory2
           { hr := E_NOINTERFACE, out := none },
         Event.act Var.dxgiFactory 7 Action.Release] := by
  decide

/-- C6, the failing input: on the constructed mono object, with
`CreateSwapChainForHwnd` failing (`DXGI_ERROR_INVALID_CALL`), the attach returns at
line 155 with that code; the factory and the factory2 pointers were acquired once
each and are released by no call of the run. -/
theorem attach_swap_chain_failure_leaks :
    CreateWindowSizeDependentResources exampleMacros
        { examplePlatform with
            CreateSwapChainForHwnd := { hr := DXGI_ERROR_INVALID_CALL, out := none } }
        (exampleConstructed false) exampleWindow =
      Outcome.returned DXGI_ERROR_INVALID_CALL (exampleConstructed false)
        [Event.call Var.m_d3dDevice 3 (Method.QueryInterface IID.IDXGIDevice) Var.dxgiDevice
           { hr := 0, out := some 5 },
         Event.call Var.dxgiDevice 5 Method.GetAdapter Var.adapter { hr := 0, out := some 6 },
         Event.call Var.adapter 6 (Method.GetParent IID.IDXGIFactory1) Var.dxgiFactory
           { hr := 0, out := some 7 },
         Event.act Var.adapter 6 Action.Release,
         Event.act Var.dxgiDevice 5 Action.Release,
         Event.call Var.dxgiFactory 7 (Method.QueryInterface IID.IDXGIFactory2) Var.dxgiFactory2
           { hr := 0, out := some 8 },
         Event.call Var.dxgiFactory2 8
           (Method.CreateSwapChainForHwnd 3 exampleWindow
             { Width := 1280, Height := 720, Format := DXGI_FORMAT.R8G8B8A8_UNORM,
               SampleDescCount := 1, BufferUsage := DXGI_USAGE.RENDER_TARGET_OUTPUT,
               BufferCount := 2, SwapEffect := DXGI_SWAP_EFFECT.FLIP_SEQUENTIAL })
           Var.m_swapChain { hr := DXGI_ERROR_INVALID_CALL, out := none }] ∧
    acquisitions Var.dxgiFactory
      (CreateWindowSizeDependentResources exampleMacros
        { examplePlatform with
            CreateSwapChainForHwnd := { hr := DXGI_ERROR_INVALID_CALL, out := none } }
        (exampleConstructed false) exampleWindow).events = 1 ∧
    releases Var.dxgiFactory
      (CreateWindowSizeDependentResources exampleMacros
        { examplePlatform with
            CreateSwapChainForHwnd := { hr := DXGI_ERROR_INVALID_CALL, out := none } }
        (exampleConstructed false) exampleWindow).events = 0 ∧
    acquisitions Var.dxgiFactory2
      (CreateWindowSizeDependentResources exampleMacros
        { examplePlatform with
            CreateSwapChainForHwnd := { hr := DXGI_ERROR_INVALID_CALL, out := none } }
        (exampleConstructed false) exampleWindow).events = 1 ∧
    releases Var.dxgiFactory2
      (CreateWindowSizeDependentResources exampleMacros
        { examplePlatform with
            CreateSwapChainForHwnd := { hr := DXGI_ERROR_INVALID_CALL, out := none } }
        (exampleConstructed false) exampleWindow).events = 0 := by
  decide

/-! ## Order of acquisition and of release -/

/-- C8, the counterexample: construction, attach and teardown on the platform where
every call succeeds. The members are acquired in the order device, context, swap
chain, render-target view, viewport array, and released in the order viewport
array, context, render-target view, swap chain, device, which is not the reverse. -/
theorem cleanup_not_reverse_of_acquisition :
    CreateDeviceResources examplePlatform exampleInit =
      Outcome.returned 0 (exampleConstructed false)
        (CreateDeviceResources examplePlatform exampleInit).events ∧
    (CreateWindowSizeDependentResources exampleMacros examplePlatform
      (exampleConstructed false) exampleWindow).value = some 0 ∧
    acquisitionOrder
      ((CreateDeviceResources examplePlatform exampleInit).events ++
        (CreateWindowSizeDependentResources exampleMacros examplePlatform
          (exampleConstructed false) exampleWindow).events) =
      [Var.m_d3dDevice, Var.m_d3dContext, Var.m_swapChain, Var.m_d3dRenderTargetView,
       Var.m_screenViewport] ∧
    releaseOrder
      (CleanupResources
        (CreateWindowSizeDependentResources exampleMacros examplePlatform
          (exampleConstructed false) exampleWindow).finalState) =
      [Var.m_screenViewport, Var.m_d3dContext, Var.m_d3dRenderTargetView, Var.m_swapChain,
       Var.m_d3dDevice] ∧
    releaseOrder
      (CleanupResources
        (CreateWindowSizeDependentResources exampleMacros examplePlatform
          (exampleConstructed false) exampleWindow).finalState) ≠
      (acquisitionOrder
        ((CreateDeviceResources examplePlatform exampleInit).events ++
          (CreateWindowSizeDependentResources exampleMacros examplePlatform
            (exampleConstructed false) exampleWindow).events)).reverse := by
  decide

/-- C8, amended: after a construction and a first attach that both return a success
code and leave all five owned members non-null, the members were acquired in the
order device, context, swap chain, render-target view, viewport array, and
`CleanupResources` releases them in the order viewport array, context,
render-target view, swap chain, device: the reverse of the acquisition order but
for the context, which is released second instead of fourth. -/
theorem cleanup_order_against_acquisition (m : Macros) (p : Platform)
    (init self self1 : DeviceResources) (hWnd : Handle) (hr0 hr : HRESULT)
    (trace0 trace : List Event)
    (hcons : CreateDeviceResources p init = Outcome.returned hr0 self trace0)
    (hok0 : SUCCEEDED hr0)
    (hfirst : init.m_swapChain = none)
    (hatt : CreateWindowSizeDependentResources m p self hWnd = Outcome.returned hr self1 trace)
    (hok : SUCCEEDED hr)
    (hctx : self1.m_d3dContext.isSome = true)
    (hrtv : self1.m_d3dRenderTargetView.isSome = true) :
    acquisitionOrder (trace0 ++ trace) =
      [Var.m_d3dDevice, Var.m_d3dContext, Var.m_swapChain, Var.m_d3dRenderTargetView,
       Var.m_screenViewport] ∧
    releaseOrder (CleanupResources self1) =
      [Var.m_screenViewport, Var.m_d3dContext, Var.m_d3dRenderTargetView, Var.m_swapChain,
       Var.m_d3dDevice] := by
  obtain ⟨device, context, -, -, -, -, rfl, rfl⟩ :=
    create_returned_succeeded p init hr0 self trace0 hcons hok0
  obtain ⟨d3dDevice, dxgiDevice, adapter, factory, swapChain, mid, tail, hdev, ho1, ho2, ho3,
    -, -, -, -, -, hmid, htail, rfl, rfl⟩ :=
    attach_returned_succeeded m p _ hWnd hr self1 trace hatt hok
  simp only [] at hdev hctx hrtv
  rcases hmid with ⟨-, hsc, -⟩ | ⟨dxgiFactory2, hq, -, hsc, rfl⟩
  · simp only [] at hsc
    rw [hfirst] at hsc
    exact absurd hsc (by simp)
  · obtain ⟨d3dContext, hctx⟩ := Option.isSome_iff_exists.mp hctx
    obtain ⟨rtv, hrtv⟩ := Option.isSome_iff_exists.mp hrtv
    constructor
    · rcases htail with ⟨-, rfl⟩ | ⟨-, c, -, rfl⟩ <;>
        cases hb : p.GetBuffer.out <;>
        simp [acquisitionOrder, Event.acquired, Var.isOwned, SAFE_RELEASE, hdev, ho1, ho2, ho3,
          hq, hsc, hctx, hrtv, hb]
    · simp [releaseOrder, CleanupResources, Event.released, Var.isOwned, SAFE_RELEASE, hdev,
        hctx, hrtv]

/-- C8 amended, at the construction and the mono attach of scenario S1. -/
theorem cleanup_order_against_acquisition_witness :
    acquisitionOrder
      ((CreateDeviceResources examplePlatform exampleInit).events ++
        (CreateWindowSizeDependentResources exampleMacros examplePlatform
          (exampleConstructed false) exampleWindow).events) =
      [Var.m_d3dDevice, Var.m_d3dContext, Var.m_swapChain, Var.m_d3dRenderTargetView,
       Var.m_screenViewport] ∧
    releaseOrder
      (CleanupResources
        (CreateWindowSizeDependentResources exampleMacros examplePlatform
          (exampleConstructed false) exampleWindow).finalState) =
      [Var.m_screenViewport, Var.m_d3dContext, Var.m_d3dRenderTargetView, Var.m_swapChain,
       Var.m_d3dDevice] :=
  cleanup_order_against_acquisition exampleMacros examplePlatform exampleInit
    (exampleConstructed false) _ exampleWindow 0 0 _ _ rfl (by decide) rfl rfl (by decide)
    rfl rfl

/-! ## The context member in the attach -/

/-- C10: with the device member non-null and every platform call of the attach
succeeding, a mono attach runs to its return exactly when the context member is
non-null on entry; a stereo attach runs to its return whatever the context member
holds, does the same whatever it holds, and makes no call through it; and an object
left by a `CreateDeviceResources` that returned a success code after a failed
context upgrade (which nulled its out-parameter) has a null context member, so that
a mono attach on it calls `RSSetViewports` through a null pointer. -/
theorem mono_attach_needs_context (m : Macros) (p : Platform) (self : DeviceResources)
    (hWnd : Handle)
    (hdev : self.m_d3dDevice.isSome = true)
    (hp : p.attachSucceeds) :
    (self.m_isStereo = false →
      ((CreateWindowSizeDependentResources m p self hWnd).completes = true ↔
        self.m_d3dContext.isSome = true)) ∧
    (self.m_isStereo = true →
      (CreateWindowSizeDependentResources m p self hWnd).completes = true ∧
      (∀ e ∈ (CreateWindowSizeDependentResources m p self hWnd).events,
        e.receiver ≠ some Var.m_d3dContext) ∧
      ∀ c : Option Handle,
        CreateWindowSizeDependentResources m p { self with m_d3dContext := c } hWnd =
          (CreateWindowSizeDependentResources m p self hWnd).mapState
            fun s => { s with m_d3dContext := c }) ∧
    (∀ (q : Platform) (init : DeviceResources) (hr0 : HRESULT) (trace0 : List Event),
      CreateDeviceResources q init = Outcome.returned hr0 self trace0 → SUCCEEDED hr0 →
      FAILED q.QueryContext1.hr → q.QueryContext1.out = none →
      self.m_d3dContext = none ∧
      (self.m_isStereo = false →
        (CreateWindowSizeDependentResources m p self hWnd).completes = false)) := by
  obtain ⟨d3dDevice, hdev⟩ := Option.isSome_iff_exists.mp hdev
  obtain ⟨⟨h1, o1⟩, ⟨h2, o2⟩, ⟨h3, o3⟩, ⟨-, o4⟩, ⟨h5, o5⟩, ⟨h6, o6⟩, ⟨h7, o7⟩⟩ := hp
  obtain ⟨dxgiDevice, o1⟩ := Option.isSome_iff_exists.mp o1
  obtain ⟨adapter, o2⟩ := Option.isSome_iff_exists.mp o2
  obtain ⟨factory, o3⟩ := Option.isSome_iff_exists.mp o3
  obtain ⟨dxgiFactory2, o4⟩ := Option.isSome_iff_exists.mp o4
  obtain ⟨swapChain, o5⟩ := Option.isSome_iff_exists.mp o5
  obtain ⟨frameBuffer, o6⟩ := Option.isSome_iff_exists.mp o6
  obtain ⟨rtv, o7⟩ := Option.isSome_iff_exists.mp o7
  have n3 : ¬ FAILED p.GetParent.hr := (not_FAILED_iff _).mpr h3
  have n5 : ¬ FAILED p.CreateSwapChainForHwnd.hr := (not_FAILED_iff _).mpr h5
  have n6 : ¬ FAILED p.GetBuffer.hr := (not_FAILED_iff _).mpr h6
  have n7 : ¬ FAILED p.CreateRenderTargetView.hr := (not_FAILED_iff _).mpr h7
  have mono : self.m_isStereo = false →
      ((CreateWindowSizeDependentResources m p self hWnd).completes = true ↔
        self.m_d3dContext.isSome = true) := by
    intro hmono
    cases hctx : self.m_d3dContext <;>
      simp [CreateWindowSizeDependentResources, lines113to124, lines134to159, Outcome.completes,
        hdev, h1, o1, h2, o2, n3, o3, o4, n5, o5, n6, o6, n7, o7, hmono, hctx]
  refine ⟨mono, fun hstereo => ⟨?_, ?_, fun c => ?_⟩, fun q init hr0 trace0 hcons hok0 hfail hnull => ?_⟩
  · simp [CreateWindowSizeDependentResources, lines113to124, lines134to159, Outcome.completes,
      hdev, h1, o1, h2, o2, n3, o3, o4, n5, o5, n6, o6, n7, o7, hstereo]
  · simp [CreateWindowSizeDependentResources, lines113to124, lines134to159, Outcome.events,
      SAFE_RELEASE, Event.receiver,
      hdev, h1, o1, h2, o2, n3, o3, o4, n5, o5, n6, o6, n7, o7, hstereo]
  · simp [CreateWindowSizeDependentResources, lines113to124, lines134to159, Outcome.mapState,
      swapChainDesc,
      hdev, h1, o1, h2, o2, n3, o3, o4, n5, o5, n6, o6, n7, o7, hstereo]
  · obtain ⟨device, context, -, -, -, -, hself, -⟩ :=
      create_returned_succeeded q init hr0 self trace0 hcons hok0
    have hctx : self.m_d3dContext = none := by rw [hself]; exact hnull
    refine ⟨hctx, fun hmono => ?_⟩
    have := (mono hmono).not.mpr (by simp [hctx])
    simpa using this

/-- C10, on the object that the construction leaves when the context upgrade fails
with `E_NOINTERFACE`: the mono attach does not run to its return. -/
theorem mono_attach_needs_context_witness :
    (CreateWindowSizeDependentResources exampleMacros examplePlatform
      { exampleConstructed false with m_d3dContext := none } exampleWindow).completes = false :=
  ((mono_attach_needs_context exampleMacros examplePlatform
      { exampleConstructed false with m_d3dContext := none } exampleWindow rfl
      (by decide)).2.2
    { examplePlatform with QueryContext1 := { hr := E_NOINTERFACE, out := none } }
    exampleInit 0 _ rfl (by decide) (by decide) rfl).2 rfl

end DX
